import Mathlib

/-!
Verification of the songscraper lyrics search logic.

This file embeds the search-and-extract workflow of `searcher.py` and the
batch loop of `fetch_lyrics.py` as executable Lean definitions and proves
properties of the candidate-selection, orchestration, fuzzy-title and batch
layers.

Modelling conventions:
- A Python exception is represented by the `Res` outcome type:
  `LyricsNotFoundError` becomes `Res.notFound`, any other exception becomes
  `Res.err` carrying an `Exc` tag (`IndexError` from indexing an empty
  string, `AttributeError` from calling `.get` on a missing link element).
- A BeautifulSoup search-result row (`bs4.element.Tag`) is abstracted to a
  `Candidate`: `artist` is the result of `select_one(artist_selector)`
  followed by the truthiness test and `.text` (`none` when the element is
  missing or falsy), `link` is the `href` of `select_one(link_selector)`
  (`none` when that element is missing).
- Network and HTML parsing are external collaborators: a `Site` environment
  gives the candidate rows parsed from the search page and, per URL, the
  `select_one(lyrics_css_selector)` result of the lyrics page.
-/

/-- Tags for Python exceptions other than LyricsNotFoundError that the
modelled code can raise. -/
inductive Exc where
  | indexError
  | attributeError
  deriving DecidableEq, Repr

/-- Outcome of a modelled Python call: a returned value, the domain
exception LyricsNotFoundError, or any other exception. -/
inductive Res (α : Type) where
  | ok (a : α)
  | notFound
  | err (e : Exc)
  deriving DecidableEq, Repr

/-- One row parsed out of a search-results page (searcher.py line 120:
`bs4.element.Tag`).  `artist` models `select_one(artist_selector)` plus its
truthiness test and `.text`; `link` models the `href` attribute of
`select_one(link_selector)`. -/
structure Candidate where
  artist : Option String
  link : Option String
  deriving DecidableEq, Repr

/-- State of a `LyricsSearcher` instance (searcher.py lines 25-28) together
with the site-specific property values the shared algorithm reads:
`search_url`, `lyrics_base_url` and the `postprocess` method. -/
structure Searcher where
  artist : String
  title : String
  strict : Bool
  search_url : String
  lyrics_base_url : String
  postprocess : String → String

/-- Python expression `a[0].lower() == b[0].lower()` (searcher.py lines 142
and 149): indexing an empty string raises IndexError; `a[0]` is evaluated
before `b[0]`. -/
def firstCharEq (a b : String) : Except Exc Bool :=
  match a.data with
  | [] => .error .indexError
  | c :: _ =>
    match b.data with
    | [] => .error .indexError
    | d :: _ => .ok (c.toLower == d.toLower)

/-- The `elif` chain of searcher.py lines 144-150: exact artist equality,
then the non-strict first-character comparison.  Returns `some url` when the
candidate is accepted, `none` when the loop moves on. -/
def matchCandidateTail (s : Searcher) (suggested_artist suggested_url : String) :
    Except Exc (Option String) :=
  if suggested_artist == s.artist then .ok (some suggested_url)
  else if !s.strict then
    match firstCharEq suggested_artist s.artist with
    | .error e => .error e
    | .ok true => .ok (some suggested_url)
    | .ok false => .ok none
  else .ok none

/-- The full `if/elif` chain of searcher.py lines 139-150, where `n` is
`len(candidates)`: the single-result first-character branch fires only when
`n == 1`, short-circuiting before any string indexing otherwise. -/
def matchCandidate (s : Searcher) (n : Nat) (suggested_artist suggested_url : String) :
    Except Exc (Option String) :=
  if n == 1 then
    match firstCharEq suggested_artist s.artist with
    | .error e => .error e
    | .ok true => .ok (some suggested_url)
    | .ok false => matchCandidateTail s suggested_artist suggested_url
  else matchCandidateTail s suggested_artist suggested_url

/-- Loop body of `find_lyrics_link` (searcher.py lines 128-151).  `n` stays
the length of the original candidate list.  A candidate with no parsable
artist element is skipped (line 132); `suggested_url` is built eagerly at
line 136, so a missing link element raises AttributeError even for a
candidate that would not be accepted. -/
def findLink (s : Searcher) (n : Nat) : List Candidate → Res String
  | [] => .notFound
  | c :: rest =>
    match c.artist with
    | none => findLink s n rest
    | some suggested_artist =>
      match c.link with
      | none => .err .attributeError
      | some href =>
        match matchCandidate s n suggested_artist (s.lyrics_base_url ++ href) with
        | .error e => .err e
        | .ok (some url) => .ok url
        | .ok none => findLink s n rest

/-- `LyricsSearcher.find_lyrics_link` (searcher.py lines 114-151): scans the
candidates in order against `len(candidates)` and raises
LyricsNotFoundError when the loop exhausts the list. -/
def find_lyrics_link (s : Searcher) (candidates : List Candidate) : Res String :=
  findLink s candidates.length candidates

/-- External environment of one adapter invocation: the candidate rows the
search page parses to (searcher.py lines 162-165) and, for each lyrics-page
URL, the `select_one(lyrics_css_selector)` result (line 180), `none` when
the page has no matching container. -/
structure Site where
  searchResult : List Candidate
  lyricsPage : String → Option String

/-- `LyricsSearcher.get_lyrics_url` (searcher.py lines 153-166): fetch the
search page, select the result rows, delegate to `find_lyrics_link`. -/
def get_lyrics_url (s : Searcher) (env : Site) : Res String :=
  find_lyrics_link s env.searchResult

/-- Python `str` applied to the result of `select_one` (searcher.py line
182): `str(None)` is the four-character string "None". -/
def pyStr : Option String → String
  | none => "None"
  | some t => t

/-- `LyricsSearcher.get_lyrics` (searcher.py lines 168-182) instrumented
with the list of URLs passed to `requests.get`: the search URL is always
fetched (line 162); the lyrics page is fetched only after a candidate was
accepted (line 177). -/
def get_lyrics_run (s : Searcher) (env : Site) : Res String × List String :=
  match get_lyrics_url s env with
  | .ok url => (.ok (s.postprocess (pyStr (env.lyricsPage url))), [s.search_url, url])
  | .notFound => (.notFound, [s.search_url])
  | .err e => (.err e, [s.search_url])

/-- Result component of `get_lyrics`. -/
def get_lyrics (s : Searcher) (env : Site) : Res String :=
  (get_lyrics_run s env).1

/-- Concrete searcher for evaluating the missing-container path: base-class
defaults (identity postprocess), strict mode. -/
def searcher5 : Searcher :=
  ⟨"artist", "title", true, "http://example/search", "http://example", id⟩

/-- Environment whose search page yields one matching row but whose lyrics
page has no element matching the lyrics-content selector. -/
def site5 : Site :=
  ⟨[⟨some "artist", some "/lyr"⟩], fun _ => none⟩

/-- C5: when the lyrics page yields no element matching the lyrics-content
selector, the claim says `get_lyrics` fails with NotFoundError.  The code
instead evaluates `str(None)`, producing the successful result "None"
(searcher.py lines 180-182): at the concrete input below the fetch succeeds
with the literal string "None" and does not raise LyricsNotFoundError. -/
theorem get_lyrics_missing_container :
    get_lyrics searcher5 site5 = .ok "None" ∧ get_lyrics searcher5 site5 ≠ .notFound := by
  constructor
  · decide
  · decide

/-- C7: an empty candidate sequence makes both `get_lyrics_url` and
`get_lyrics` raise LyricsNotFoundError (searcher.py lines 151, 162-166). -/
theorem empty_candidates_not_found (s : Searcher) (env : Site)
    (h : env.searchResult = []) :
    get_lyrics_url s env = .notFound ∧ get_lyrics s env = .notFound := by
  have h1 : get_lyrics_url s env = .notFound := by
    simp [get_lyrics_url, find_lyrics_link, h, findLink]
  exact ⟨h1, by simp [get_lyrics, get_lyrics_run, h1]⟩

/-- Concrete searcher for the empty-results witness. -/
def searcher7 : Searcher := ⟨"a", "t", true, "http://s7", "http://b7", id⟩

/-- Environment whose search page yields zero result rows. -/
def site7 : Site := ⟨[], fun _ => none⟩

/-- Witness for C7 at a concrete empty-results environment. -/
theorem empty_candidates_not_found_witness :
    get_lyrics_url searcher7 site7 = .notFound ∧ get_lyrics searcher7 site7 = .notFound :=
  empty_candidates_not_found searcher7 site7 rfl

/-- Concrete searcher for the fetch-trace witness. -/
def searcher8 : Searcher := ⟨"bob", "t", true, "http://s8", "http://b8", id⟩

/-- Environment for the fetch-trace witness: one exactly matching row. -/
def site8 : Site := ⟨[⟨some "bob", some "/x"⟩], fun _ => some "LY"⟩

/-- C8: the instrumented run records the search-page URL always, and the
lyrics-page URL exactly when a candidate was accepted: two fetches on the
successful path and only the initial search fetch on the not-found path
(searcher.py lines 162 and 177). -/
theorem fetch_trace_contract (s : Searcher) (env : Site) :
    (∀ url, get_lyrics_url s env = .ok url →
        (get_lyrics_run s env).2 = [s.search_url, url]) ∧
    (get_lyrics s env = .notFound → (get_lyrics_run s env).2 = [s.search_url]) := by
  refine ⟨fun url hurl => by simp [get_lyrics_run, hurl], fun hnf => ?_⟩
  cases h : get_lyrics_url s env with
  | ok u => simp [get_lyrics, get_lyrics_run, h] at hnf
  | notFound => simp [get_lyrics_run, h]
  | err e => simp [get_lyrics, get_lyrics_run, h] at hnf

/-- Witness for C8: on the concrete successful run both fetches appear in
order. -/
theorem fetch_trace_contract_witness :
    (get_lyrics_run searcher8 site8).2 = ["http://s8", "http://b8/x"] :=
  (fetch_trace_contract searcher8 site8).1 "http://b8/x" (by decide)

/-- A searcher adapter as seen by the orchestrator: constructing the class
and calling `get_lyrics` is one function of the artist, the title and the
strictness flag passed at searcher.py line 329. -/
abbrev Adapter : Type := String → String → Bool → Res String

/-- The try/except loop shared by `MutipleLyricsSearcher.search` (searcher.py
lines 327-332) and `fuzzy_title_search` (lines 345-350), instrumented with
the number of attempts made: LyricsNotFoundError moves to the next element,
a value or any other exception stops the loop at once, and the exhausted
loop raises LyricsNotFoundError. -/
def tryEachN {α : Type} (f : α → Res String) : List α → Res String × Nat
  | [] => (.notFound, 0)
  | x :: xs =>
    match f x with
    | .ok l => (.ok l, 1)
    | .err e => (.err e, 1)
    | .notFound =>
      let p := tryEachN f xs
      (p.1, p.2 + 1)

/-- `MutipleLyricsSearcher.search` (searcher.py lines 326-332) with the
invocation count: every adapter is invoked with the same artist, title and
strictness flag. -/
def searchN (artist title : String) (strict : Bool) (adapters : List Adapter) :
    Res String × Nat :=
  tryEachN (fun a => a artist title strict) adapters

/-- Result component of `MutipleLyricsSearcher.search`. -/
def search (artist title : String) (strict : Bool) (adapters : List Adapter) : Res String :=
  (searchN artist title strict adapters).1

theorem tryEachN_first_hit {α : Type} (f : α → Res String) (pre post : List α) (x : α)
    (r : Res String) (hpre : ∀ y ∈ pre, f y = .notFound) (hx : f x = r)
    (hr : r ≠ .notFound) :
    tryEachN f (pre ++ x :: post) = (r, pre.length + 1) := by
  induction pre with
  | nil =>
    cases r with
    | ok l => simp [tryEachN, hx]
    | notFound => exact absurd rfl hr
    | err e => simp [tryEachN, hx]
  | cons y ys ih =>
    have hy : f y = .notFound := hpre y (by simp)
    have ih2 := ih (fun z hz => hpre z (by simp [hz]))
    simp [tryEachN, hy, ih2]

theorem tryEachN_all_nf {α : Type} (f : α → Res String) (l : List α)
    (h : ∀ y ∈ l, f y = .notFound) : tryEachN f l = (.notFound, l.length) := by
  induction l with
  | nil => rfl
  | cons x xs ih =>
    have hx : f x = .notFound := h x (by simp)
    have ih2 := ih (fun z hz => h z (by simp [hz]))
    simp [tryEachN, hx, ih2]

theorem tryEachN_nf_all {α : Type} (f : α → Res String) (l : List α)
    (h : (tryEachN f l).1 = .notFound) : ∀ y ∈ l, f y = .notFound := by
  induction l with
  | nil => simp
  | cons x xs ih =>
    intro y hy
    cases hfx : f x with
    | ok s => rw [show tryEachN f (x :: xs) = (.ok s, 1) by simp [tryEachN, hfx]] at h; cases h
    | err e => rw [show tryEachN f (x :: xs) = (.err e, 1) by simp [tryEachN, hfx]] at h; cases h
    | notFound =>
      have h2 : (tryEachN f xs).1 = .notFound := by
        rw [show tryEachN f (x :: xs) = ((tryEachN f xs).1, (tryEachN f xs).2 + 1) by
          simp [tryEachN, hfx]] at h
        exact h
      rcases List.mem_cons.mp hy with rfl | hy2
      · exact hfx
      · exact ih h2 y hy2

/-- C1: the orchestrator invokes the adapters in list order, each with the
same artist, title and strictness flag; it stops at the first adapter that
does not raise LyricsNotFoundError, returning its value after exactly
`pre.length + 1` invocations, propagates any other exception unchanged at
the same point, and raises LyricsNotFoundError exactly when every adapter
raises LyricsNotFoundError (searcher.py lines 326-332). -/
theorem orchestrator_contract (artist title : String) (strict : Bool) :
    (∀ (pre post : List Adapter) (a : Adapter) (l : String),
        (∀ b ∈ pre, b artist title strict = .notFound) →
        a artist title strict = .ok l →
        searchN artist title strict (pre ++ a :: post) = (.ok l, pre.length + 1)) ∧
    (∀ (pre post : List Adapter) (a : Adapter) (e : Exc),
        (∀ b ∈ pre, b artist title strict = .notFound) →
        a artist title strict = .err e →
        searchN artist title strict (pre ++ a :: post) = (.err e, pre.length + 1)) ∧
    (∀ adapters : List Adapter,
        search artist title strict adapters = .notFound ↔
        ∀ b ∈ adapters, b artist title strict = .notFound) := by
  refine ⟨fun pre post a l hpre ha => ?_, fun pre post a e hpre ha => ?_, fun adapters => ?_⟩
  · exact tryEachN_first_hit _ pre post a _ hpre ha (by simp)
  · exact tryEachN_first_hit _ pre post a _ hpre ha (by simp)
  · constructor
    · exact fun h => tryEachN_nf_all _ adapters h
    · intro h
      show (tryEachN _ adapters).1 = _
      rw [tryEachN_all_nf _ adapters h]

/-- Adapter that always raises LyricsNotFoundError. -/
def adapterNF : Adapter := fun _ _ _ => .notFound

/-- Adapter that always succeeds with fixed lyrics. -/
def adapterOk : Adapter := fun _ _ _ => .ok "LYRICS"

/-- Witness for C1: with two failing adapters before a succeeding one, the
orchestrator returns the third result after exactly three invocations. -/
theorem orchestrator_contract_witness :
    searchN "a" "t" true [adapterNF, adapterNF, adapterOk] = (.ok "LYRICS", 3) :=
  (orchestrator_contract "a" "t" true).1 [adapterNF, adapterNF] [] adapterOk "LYRICS"
    (fun b hb => by
      rcases List.mem_cons.mp hb with rfl | hb2
      · rfl
      · rcases List.mem_cons.mp hb2 with rfl | hb3
        · rfl
        · cases hb3)
    rfl

/-- Python `c in title` for a single character `c` (searcher.py lines 337
and 341). -/
def containsChar (s : String) (c : Char) : Bool :=
  s.data.any (fun x => x == c)

/-- Python `title.replace(c, d)` for single-character pattern and
replacement (searcher.py lines 338 and 342): every occurrence is replaced. -/
def replaceChar (s : String) (c d : Char) : String :=
  String.mk (s.data.map (fun x => if x == c then d else x))

/-- Variant list built by `MutipleLyricsSearcher.fuzzy_title_search`
(searcher.py lines 335-343): the original title, then the half-width
variant when the original contains a full-width ？ or ！, then the
full-width variant when the original contains a half-width ? or !.  Both
tests look at the original title. -/
def fuzzy_titles (title : String) : List String :=
  ([title] ++
    (if containsChar title '？' || containsChar title '！' then
      [replaceChar (replaceChar title '？' '?') '！' '!']
    else [])) ++
  (if containsChar title '?' || containsChar title '!' then
    [replaceChar (replaceChar title '?' '？') '!' '！']
  else [])

/-- Loop of `fuzzy_title_search` (searcher.py lines 345-350) with the
attempt count: the orchestrator is invoked on each variant in order with
artist and strictness unchanged. -/
def fuzzy_title_searchN (adapters : List Adapter) (strict : Bool) (artist title : String) :
    Res String × Nat :=
  tryEachN (fun t => search artist t strict adapters) (fuzzy_titles title)

/-- Result component of `fuzzy_title_search`. -/
def fuzzy_title_search (adapters : List Adapter) (strict : Bool) (artist title : String) :
    Res String :=
  (fuzzy_title_searchN adapters strict artist title).1

/-- C4: the variant list is built from the original title only, in order:
original, then the half-width variant when the original contains ？ or ！,
then the full-width variant when the original contains ? or !; the quoted
examples evaluate as the spec states, a mixed-width title yields exactly
three variants with no chained substitution, and the loop over the variants
returns the first orchestrator success, raising LyricsNotFoundError exactly
when every variant fails (searcher.py lines 334-350). -/
theorem fuzzy_expander_contract :
    (∀ title : String, fuzzy_titles title =
        [title] ++
        (if containsChar title '？' || containsChar title '！' then
          [replaceChar (replaceChar title '？' '?') '！' '!']
        else []) ++
        (if containsChar title '?' || containsChar title '!' then
          [replaceChar (replaceChar title '?' '？') '!' '！']
        else [])) ∧
    fuzzy_titles "Hello？" = ["Hello？", "Hello?"] ∧
    fuzzy_titles "Hi!" = ["Hi!", "Hi！"] ∧
    fuzzy_titles "Go？Go!" = ["Go？Go!", "Go?Go!", "Go？Go！"] ∧
    (∀ (adapters : List Adapter) (strict : Bool) (artist title : String)
        (pre post : List String) (t l : String),
        fuzzy_titles title = pre ++ t :: post →
        (∀ u ∈ pre, search artist u strict adapters = .notFound) →
        search artist t strict adapters = .ok l →
        fuzzy_title_search adapters strict artist title = .ok l) ∧
    (∀ (adapters : List Adapter) (strict : Bool) (artist title : String),
        fuzzy_title_search adapters strict artist title = .notFound ↔
        ∀ u ∈ fuzzy_titles title, search artist u strict adapters = .notFound) := by
  refine ⟨fun title => by simp [fuzzy_titles], by decide, by decide, by decide,
    fun adapters strict artist title pre post t l hsplit hpre ht => ?_,
    fun adapters strict artist title => ?_⟩
  · show (tryEachN _ (fuzzy_titles title)).1 = _
    rw [hsplit, tryEachN_first_hit _ pre post t _ hpre ht (by simp)]
  · constructor
    · exact fun h => tryEachN_nf_all _ _ h
    · intro h
      show (tryEachN _ (fuzzy_titles title)).1 = _
      rw [tryEachN_all_nf _ _ h]

/-- Adapter that succeeds only on the half-width title "Hello?". -/
def adapterHello : Adapter := fun _ t _ => if t == "Hello?" then .ok "HL" else .notFound

/-- Witness for C4: on title "Hello？" the original variant fails, the
half-width variant succeeds, and the fuzzy search returns its lyrics. -/
theorem fuzzy_expander_contract_witness :
    fuzzy_title_search [adapterHello] true "a" "Hello？" = .ok "HL" :=
  fuzzy_expander_contract.2.2.2.2.1 [adapterHello] true "a" "Hello？"
    ["Hello？"] [] "Hello?" "HL" (by decide)
    (fun u hu => by
      rcases List.mem_cons.mp hu with rfl | hu2
      · decide
      · cases hu2)
    (by decide)

/-- Output path built by fetch_lyrics.py line 28:
`"lyrics/" + f"{artist}-{title}".replace("/", "_")`. -/
def outPath (artist title : String) : String :=
  "lyrics/" ++ replaceChar (artist ++ "-" ++ title) '/' '_'

/-- Whether an outcome is an exception other than LyricsNotFoundError. -/
def isErr {α : Type} : Res α → Bool
  | .err _ => true
  | _ => false

/-- Batch loop of fetch_lyrics.py lines 13-29 over already-split (title,
artist) pairs, abstracting file writes as the returned list of (path,
content) pairs: each pair runs `fuzzy_title_search` with `strict=False`
(line 21); LyricsNotFoundError prints and continues; any other exception
aborts the remaining batch (second component). -/
def runBatch (adapters : List Adapter) : List (String × String) → List (String × String) × Option Exc
  | [] => ([], none)
  | (title, artist) :: rest =>
    match fuzzy_title_search adapters false artist title with
    | .ok lyrics =>
      let p := runBatch adapters rest
      ((outPath artist title, lyrics) :: p.1, p.2)
    | .notFound => runBatch adapters rest
    | .err e => ([], some e)

theorem runBatch_eq (adapters : List Adapter) (pairs : List (String × String))
    (h : ∀ p ∈ pairs, isErr (fuzzy_title_search adapters false p.2 p.1) = false) :
    runBatch adapters pairs =
      (pairs.filterMap (fun p =>
        match fuzzy_title_search adapters false p.2 p.1 with
        | .ok l => some (outPath p.2 p.1, l)
        | _ => none), none) := by
  induction pairs with
  | nil => rfl
  | cons p rest ih =>
    obtain ⟨title, artist⟩ := p
    have hp := h (title, artist) (by simp)
    have ih2 := ih (fun q hq => h q (by simp [hq]))
    cases hf : fuzzy_title_search adapters false artist title with
    | ok l => simp [runBatch, hf, List.filterMap_cons, ih2]
    | notFound => simp [runBatch, hf, List.filterMap_cons, ih2]
    | err e => rw [show ((title, artist) : String × String).2 = artist from rfl,
        show ((title, artist) : String × String).1 = title from rfl, hf] at hp; cases hp

/-- C9: when no pair raises an exception other than LyricsNotFoundError,
the batch writes exactly one file per successful pair, at the path
`lyrics/<artist>-<title>` with every slash of the combined name replaced by
an underscore and the lyrics text as content, and a not-found pair writes
nothing while the batch continues to completion (fetch_lyrics.py lines
13-29). -/
theorem batch_driver_contract (adapters : List Adapter) (pairs : List (String × String))
    (h : ∀ p ∈ pairs, isErr (fuzzy_title_search adapters false p.2 p.1) = false) :
    runBatch adapters pairs =
      (pairs.filterMap (fun p =>
        match fuzzy_title_search adapters false p.2 p.1 with
        | .ok l => some (outPath p.2 p.1, l)
        | _ => none), none) ∧
    outPath "AC/DC" "T.N.T/Live" = "lyrics/AC_DC-T.N.T_Live" :=
  ⟨runBatch_eq adapters pairs h, by decide⟩

/-- Helper: a string different from the empty string has a head character. -/
theorem ne_empty_head {a : String} (h : a ≠ "") : ∃ c l, a.data = c :: l := by
  rcases a with ⟨d⟩
  cases d with
  | nil => exact absurd rfl h
  | cons c l => exact ⟨c, l, rfl⟩

/-- First characters of two strings compare equal case-insensitively;
false when either string is empty.  This is the claim-side reading of the
loose comparison at searcher.py line 149. -/
def headLowEq (a b : String) : Bool :=
  match a.data, b.data with
  | c :: _, d :: _ => c.toLower == d.toLower
  | _, _ => false

/-- Claim-side selection predicate for candidate lists of length greater
than one: exact artist equality, or non-strict mode with a case-insensitive
first-character match. -/
def selBool (strict : Bool) (qa sa : String) : Bool :=
  (sa == qa) || (!strict && headLowEq sa qa)

/-- Claim-side per-candidate selection: a candidate with no parsable artist
is never selected, otherwise `selBool` decides, and the selected value is
the base URL concatenated with the candidate link. -/
def selCand (s : Searcher) (c : Candidate) : Option String :=
  match c.artist, c.link with
  | some sa, some href =>
    if selBool s.strict s.artist sa then some (s.lyrics_base_url ++ href) else none
  | _, _ => none

/-- Precondition for the selection loop to run without a Python error:
every candidate with a parsable artist has non-empty artist text and a link
element. -/
def wellFormed (cs : List Candidate) : Bool :=
  cs.all (fun c =>
    match c.artist with
    | none => true
    | some sa => sa != "" && c.link.isSome)

/-- Helper: on two non-empty strings the first-character comparison returns
a boolean rather than raising. -/
theorem firstCharEq_ok {a b : String} (ha : a ≠ "") (hb : b ≠ "") :
    ∃ t, firstCharEq a b = .ok t := by
  obtain ⟨c, ta, hca⟩ := ne_empty_head ha
  obtain ⟨d, tb, hdb⟩ := ne_empty_head hb
  exact ⟨c.toLower == d.toLower, by simp [firstCharEq, hca, hdb]⟩

/-- Helper: with non-empty artist strings the `elif` tail never raises. -/
theorem matchCandidateTail_ok (s : Searcher) (sa url : String)
    (hsa : sa ≠ "") (hq : s.artist ≠ "") :
    ∃ t, matchCandidateTail s sa url = .ok t := by
  obtain ⟨b1, hb1⟩ := firstCharEq_ok hsa hq
  by_cases heq : sa = s.artist
  · exact ⟨some url, by simp [matchCandidateTail, heq]⟩
  · have heqb : (sa == s.artist) = false := by simp [heq]
    cases hstrict : s.strict
    · cases b1
      · exact ⟨none, by simp [matchCandidateTail, heqb, hstrict, hb1]⟩
      · exact ⟨some url, by simp [matchCandidateTail, heqb, hstrict, hb1]⟩
    · exact ⟨none, by simp [matchCandidateTail, heqb, hstrict]⟩

/-- Helper: with non-empty artist strings the whole candidate check never
raises. -/
theorem matchCandidate_ok (s : Searcher) (n : Nat) (sa url : String)
    (hsa : sa ≠ "") (hq : s.artist ≠ "") :
    ∃ t, matchCandidate s n sa url = .ok t := by
  obtain ⟨tl, htl⟩ := matchCandidateTail_ok s sa url hsa hq
  obtain ⟨b1, hb1⟩ := firstCharEq_ok hsa hq
  cases hn : (n == 1)
  · exact ⟨tl, by simp [matchCandidate, hn, htl]⟩
  · cases b1
    · exact ⟨tl, by simp [matchCandidate, hn, hb1, htl]⟩
    · exact ⟨some url, by simp [matchCandidate, hn, hb1]⟩

/-- Helper: under the well-formedness precondition the selection loop never
raises an exception other than LyricsNotFoundError, whatever length value
is supplied. -/
theorem findLink_no_err (s : Searcher) (n : Nat) (hq : s.artist ≠ "")
    (cs : List Candidate) (hw : wellFormed cs = true) (e : Exc) :
    findLink s n cs ≠ .err e := by
  induction cs with
  | nil => simp [findLink]
  | cons c rest ih =>
    rw [wellFormed, List.all_cons, Bool.and_eq_true] at hw
    cases hart : c.artist with
    | none =>
      simp only [findLink, hart]
      exact ih hw.2
    | some sa =>
      have hc := hw.1
      rw [hart] at hc
      simp only [Bool.and_eq_true, bne_iff_ne, ne_eq, Option.isSome_iff_exists] at hc
      obtain ⟨⟨hsa, href, hhref⟩⟩ := And.intro hc True.intro
      obtain ⟨t, ht⟩ := matchCandidate_ok s n sa (s.lyrics_base_url ++ href) hsa hq
      cases t with
      | none =>
        simp only [findLink, hart, hhref, ht]
        exact ih hw.2
      | some url => simp [findLink, hart, hhref, ht]

/-- Helper: for a length value other than one, under the preconditions the
selection loop returns the first candidate accepted by `selBool`, scanning
in order, and LyricsNotFoundError when none is accepted. -/
theorem findLink_ne_one (s : Searcher) (n : Nat) (hn : (n == 1) = false)
    (hq : s.artist ≠ "") (cs : List Candidate) (hw : wellFormed cs = true) :
    findLink s n cs =
      match cs.findSome? (selCand s) with
      | some url => .ok url
      | none => .notFound := by
  induction cs with
  | nil => rfl
  | cons c rest ih =>
    rw [wellFormed, List.all_cons, Bool.and_eq_true] at hw
    cases hart : c.artist with
    | none =>
      simp only [findLink, hart, List.findSome?_cons, selCand]
      exact ih hw.2
    | some sa =>
      have hc := hw.1
      rw [hart] at hc
      simp only [Bool.and_eq_true, bne_iff_ne, ne_eq, Option.isSome_iff_exists] at hc
      obtain ⟨hsa, href, hhref⟩ := hc
      obtain ⟨ca, ta, hca⟩ := ne_empty_head hsa
      obtain ⟨cq, tq, hcq⟩ := ne_empty_head hq
      have hfc : firstCharEq sa s.artist = .ok (ca.toLower == cq.toLower) := by
        simp [firstCharEq, hca, hcq]
      have hhl : headLowEq sa s.artist = (ca.toLower == cq.toLower) := by
        simp [headLowEq, hca, hcq]
      by_cases heq : sa = s.artist
      · simp [findLink, hart, hhref, matchCandidate, hn, matchCandidateTail, heq,
          List.findSome?_cons, selCand, selBool]
      · have heqb : (sa == s.artist) = false := by simp [heq]
        cases hstrict : s.strict
        · cases hcc : (ca.toLower == cq.toLower)
          · rw [hcc] at hfc
            simp only [findLink, hart, hhref, matchCandidate, hn, Bool.false_eq_true,
              if_false, matchCandidateTail, heqb, hstrict, hfc, List.findSome?_cons,
              selCand, selBool, hhl, hcc]
            simp only [cond_false, Bool.or_false, Bool.and_false, if_false]
            simpa [heqb] using ih hw.2
          · rw [hcc] at hfc
            simp [findLink, hart, hhref, matchCandidate, hn, matchCandidateTail, heqb,
              hstrict, hfc, List.findSome?_cons, selCand, selBool, hhl, hcc]
        · simp only [findLink, hart, hhref, matchCandidate, hn, Bool.false_eq_true,
            if_false, matchCandidateTail, heqb, hstrict, List.findSome?_cons,
            selCand, selBool, hhl]
          simpa [heqb] using ih hw.2

/-- C2: for candidate lists of length greater than one, under the
preconditions that the query artist is non-empty and every candidate with a
parsable artist has non-empty artist text and a link element, the selection
skips candidates with no parsable artist and accepts a candidate exactly
when its artist equals the query artist or strictness is disabled and the
first characters match case-insensitively; candidates are scanned in order,
the first accepted link is returned, and LyricsNotFoundError is raised when
none is accepted (searcher.py lines 128-151). -/
theorem candidate_selection_multi (s : Searcher) (cs : List Candidate)
    (hlen : 1 < cs.length) (hq : s.artist ≠ "") (hw : wellFormed cs = true) :
    find_lyrics_link s cs =
      match cs.findSome? (selCand s) with
      | some url => .ok url
      | none => .notFound := by
  have hn : (cs.length == 1) = false := by
    rw [beq_eq_false_iff_ne]
    omega
  exact findLink_ne_one s cs.length hn hq cs hw

/-- Concrete searcher for the C2 witness: strict mode, query artist
"Alice". -/
def searcher2w : Searcher := ⟨"Alice", "t", true, "http://s2", "http://b2", id⟩

/-- Concrete candidates for the C2 witness: one with no parsable artist,
one wrong artist, one exact match. -/
def cands2w : List Candidate :=
  [⟨none, none⟩, ⟨some "Bob", some "/u1"⟩, ⟨some "Alice", some "/u2"⟩]

/-- Witness for C2: the unparsable row is skipped, the wrong artist is
rejected, and the exact match in third position is returned. -/
theorem candidate_selection_multi_witness :
    find_lyrics_link searcher2w cands2w = .ok "http://b2/u2" :=
  (candidate_selection_multi searcher2w cands2w (by decide) (by decide) (by decide)).trans
    (by decide)

/-- C3: a single-candidate list with a parsable artist whose first
character case-insensitively equals the first character of the query artist
is accepted immediately, whatever the strictness flag and whether or not
the full strings are equal, and the returned URL is the base URL followed
by the candidate link (searcher.py lines 139-143). -/
theorem candidate_selection_single (s : Searcher) (c : Candidate) (sa href : String)
    (ha : c.artist = some sa) (hl : c.link = some href)
    (h1 : firstCharEq sa s.artist = .ok true) :
    find_lyrics_link s [c] = .ok (s.lyrics_base_url ++ href) := by
  simp [find_lyrics_link, findLink, ha, hl, matchCandidate, h1]

/-- Concrete searcher for the C3 witness: strict mode, lower-case query. -/
def searcher3w : Searcher := ⟨"alice", "t", true, "http://s3", "http://b3", id⟩

/-- Concrete candidate for the C3 witness: full string differs from the
query artist, first character matches case-insensitively. -/
def cand3w : Candidate := ⟨some "Alice in Chains", some "/x"⟩

/-- Witness for C3: the single loosely matching candidate is accepted in
strict mode even though the artist strings differ. -/
theorem candidate_selection_single_witness :
    find_lyrics_link searcher3w [cand3w] = .ok "http://b3/x" :=
  (candidate_selection_single searcher3w cand3w "Alice in Chains" "/x" rfl rfl
    (by rfl)).trans (by decide)

/-- Strict searcher with an empty query artist, violating the claimed
precondition. -/
def searcher10a : Searcher := ⟨"", "t", true, "http://s10a", "http://b10a", id⟩

/-- Two candidates with parsable artists and links for the counterexample. -/
def cands10a : List Candidate := [⟨some "A", some "/1"⟩, ⟨some "B", some "/2"⟩]

/-- C10 counterexample: the claim says that outside its preconditions the
selection fails with an error other than LyricsNotFoundError; here the
query artist is empty — outside the preconditions — yet in strict mode the
short-circuited comparisons never index the empty string and the loop
raises LyricsNotFoundError, so the operation is total at this input. -/
theorem candidate_selection_totality_counterexample :
    searcher10a.artist = "" ∧ find_lyrics_link searcher10a cands10a = .notFound := by
  exact ⟨rfl, by decide⟩

/-- Non-strict searcher meeting the preconditions except that one candidate
has empty artist text. -/
def searcher10b : Searcher := ⟨"q", "t", false, "http://s10b", "http://b10b", id⟩

/-- Candidates whose first entry has empty artist text. -/
def cands10b : List Candidate := [⟨some "", some "/1"⟩, ⟨some "x", some "/2"⟩]

/-- C10 amended: under the preconditions — non-empty query artist and every
candidate with a parsable artist having non-empty artist text and a link
element — the selection is total, returning a URL or LyricsNotFoundError
and never another error; outside the preconditions it may fail with
another error, as the concrete non-strict run on an empty candidate artist
shows (IndexError from `suggested_artist[0]`, searcher.py line 149). -/
theorem candidate_selection_totality (s : Searcher) (cs : List Candidate)
    (hq : s.artist ≠ "") (hw : wellFormed cs = true) :
    (∀ e, find_lyrics_link s cs ≠ .err e) ∧
    find_lyrics_link searcher10b cands10b = .err .indexError :=
  ⟨fun e => findLink_no_err s cs.length hq cs hw e, by decide⟩

/-- Well-formed non-strict searcher and candidates for the C10 witness. -/
def searcher10w : Searcher := ⟨"w", "t", false, "http://s10w", "http://b10w", id⟩

/-- Candidates meeting the preconditions for the C10 witness. -/
def cands10w : List Candidate := [⟨some "zz", some "/1"⟩, ⟨none, none⟩]

/-- Witness for C10 at a concrete well-formed input. -/
theorem candidate_selection_totality_witness :
    find_lyrics_link searcher10w cands10w ≠ .err .indexError :=
  (candidate_selection_totality searcher10w cands10w (by decide) (by decide)).1 .indexError

/-- Adapter for the batch witness: succeeds exactly for artist "X". -/
def adapterX : Adapter := fun a _ _ => if a == "X" then .ok "LX" else .notFound

/-- Witness for C9: a succeeding pair writes its file, the not-found pair
writes nothing and does not abort the batch. -/
theorem batch_driver_contract_witness :
    runBatch [adapterX] [("t1", "X"), ("t2", "Y")] = ([("lyrics/X-t1", "LX")], none) :=
  ((batch_driver_contract [adapterX] [("t1", "X"), ("t2", "Y")]
    (fun p hp => by
      rcases List.mem_cons.mp hp with rfl | hp2
      · decide
      · rcases List.mem_cons.mp hp2 with rfl | hp3
        · decide
        · cases hp3)).1).trans (by decide)

/-- `UtanetSearcher.search_url` (searcher.py lines 216-219): the title is
substituted into the template as is. -/
def utanet_search_url (title : String) : String :=
  "https://www.uta-net.com/search/?Aselect=2&Keyword=" ++ title ++ "&Bselect=4&x=0&y=0"

/-- `JLyricSearcher.search_url` (searcher.py lines 249-252): title and
artist are substituted into the template as is. -/
def jlyric_search_url (artist title : String) : String :=
  "http://search.j-lyric.net/index.php?kt=" ++ title ++ "&ct=2&ka=" ++ artist ++ "&ca=2"

/-- Hexadecimal digit character for a value below sixteen. -/
def hexDig (n : Nat) : Char :=
  if n < 10 then Char.ofNat (48 + n) else Char.ofNat (55 + n)

/-- Modelled from the spec: section 4.1 step 1 claims artist and title are
substituted "URL-encoded", but the repository contains no encoding helper,
so standard percent-encoding is defined here for comparison — unreserved
characters are kept, every other character has each UTF-8 byte written as a
percent sign and two hexadecimal digits. -/
def urlEncodeChar (c : Char) : List Char :=
  if c.isAlphanum || c == '-' || c == '_' || c == '.' || c == '~' then [c]
  else (String.utf8EncodeChar c).foldr
    (fun b acc => '%' :: hexDig (b.toNat / 16) :: hexDig (b.toNat % 16) :: acc) []

/-- Modelled from the spec: percent-encoding of a whole string. -/
def urlEncodeSpec (s : String) : String :=
  String.mk (s.data.foldr (fun c acc => urlEncodeChar c ++ acc) [])

/-- Helper: string append concatenates the character lists. -/
theorem data_append (a b : String) : (a ++ b).data = a.data ++ b.data := by
  rcases a with ⟨d⟩
  rcases b with ⟨e⟩
  rfl

/-- Helper: strings with equal character lists are equal. -/
theorem string_data_eq {a b : String} (h : a.data = b.data) : a = b := by
  rcases a with ⟨d⟩
  rcases b with ⟨e⟩
  simp only at h
  rw [h]

/-- C6 counterexample: for the title "a&b" the built search URL keeps the
raw ampersand, so it differs from the template filled with the URL-encoded
title (which would use %26); the claim that the substituted values are
URL-encoded fails at this input. -/
theorem search_url_encoding_counterexample :
    utanet_search_url "a&b" ≠
      "https://www.uta-net.com/search/?Aselect=2&Keyword=" ++ urlEncodeSpec "a&b" ++
        "&Bselect=4&x=0&y=0" := by
  decide

/-- C6 amended: the search URL is built from the template with the raw
artist and title substituted directly, with no URL-encoding; filling the
template with the percent-encoded title instead agrees with the code
exactly for titles that percent-encoding leaves unchanged (searcher.py
lines 216-219 and 249-252). -/
theorem search_url_raw_substitution (artist title : String) :
    utanet_search_url title =
      "https://www.uta-net.com/search/?Aselect=2&Keyword=" ++ title ++
        "&Bselect=4&x=0&y=0" ∧
    jlyric_search_url artist title =
      "http://search.j-lyric.net/index.php?kt=" ++ title ++ "&ct=2&ka=" ++ artist ++
        "&ca=2" ∧
    (utanet_search_url title =
        "https://www.uta-net.com/search/?Aselect=2&Keyword=" ++ urlEncodeSpec title ++
          "&Bselect=4&x=0&y=0" ↔
      urlEncodeSpec title = title) := by
  refine ⟨rfl, rfl, ?_⟩
  constructor
  · intro h
    have hd := congrArg String.data h
    rw [utanet_search_url] at hd
    rw [data_append, data_append, data_append, data_append] at hd
    have h1 := List.append_cancel_right hd
    have h2 := List.append_cancel_left h1
    exact (string_data_eq h2).symm
  · intro h
    rw [utanet_search_url, h]
